import Mathlib

/-!
Verification of the SDS011 particulate-sensor protocol codec.

The repository contains two near-identical codec implementations:
a typed one in src/src/lib.rs (returning Result values) and a duplicated
one in src/src/sensor.rs (returning Option values and panicking on
transport failure).  Both are embedded below as pure functions on byte
lists (bytes as Nat, machine arithmetic made explicit with mod 256 and
bitwise-and 255).  Transport I/O is modelled by passing in the outcome of
the single read an operation performs, and by returning a Trace that
records the frames written and the number of reads attempted.  The f32
concentration values are modelled as exact rationals; the concrete values
checked below (10.0 and 20.0) are exactly representable in f32, so the
model agrees with the code at every point used by a theorem.
-/

namespace SDS011

/-- Protocol constants from src/src/lib.rs lines 10-32. -/
def HEAD : Nat := 0xaa

def TAIL : Nat := 0xab

def CMD_ID : Nat := 0xb4

def WRITE : Nat := 0x01

def REPORT_MODE_CMD : Nat := 0x02

def PASSIVE : Nat := 0x01

def QUERY_CMD : Nat := 0x04

def WORK_PERIOD_CMD : Nat := 0x08

/-- The error taxonomy of src/src/error.rs.  ReadError wraps transport
failures, carrying a description string. -/
inductive Error where
  | TooLongWorkTime
  | EmptyDataFrame
  | BadChecksum
  | ReadError (description : String)
deriving DecidableEq, Repr

/-- cmd_begin from src/src/lib.rs lines 156-161: the two fixed header
bytes raw 0xAA then 0xB4. -/
def cmd_begin : List Nat := [HEAD, CMD_ID]

/-- finish_cmd from src/src/lib.rs lines 183-199: append the two 0xFF ID
bytes, then the checksum (sum of all bytes from index 2 on, mod 256),
then the tail byte. -/
def finish_cmd (cmd : List Nat) : List Nat :=
  let cmd2 := cmd ++ [0xff, 0xff]
  let checksum := ((cmd2.drop 2).foldl (fun a b => a + b) 0) % 256
  cmd2 ++ [checksum, TAIL]

/-- The frame built by set_report_mode (src/src/lib.rs lines 110-121):
opcode 0x02, write flag, passive flag, ten zero bytes, then framing. -/
def report_mode_frame : List Nat :=
  finish_cmd (cmd_begin ++ [REPORT_MODE_CMD, WRITE, PASSIVE] ++ List.replicate 10 0)

/-- The frame built by query (src/src/lib.rs lines 128-134):
opcode 0x04, twelve zero bytes, then framing. -/
def query_frame : List Nat :=
  finish_cmd (cmd_begin ++ [QUERY_CMD] ++ List.replicate 12 0)

/-- The frame built by set_work_period (src/src/lib.rs lines 165-177)
once the work_time bound check has passed: opcode 0x08, write flag, the
period byte, ten zero bytes, then framing. -/
def work_period_frame (work_time : Nat) : List Nat :=
  finish_cmd (cmd_begin ++ [WORK_PERIOD_CMD, WRITE, work_time] ++ List.replicate 10 0)

/-- The reply-validation body of get_reply (src/src/lib.rs lines 210-225),
applied to the 10-byte buffer read_exact filled: slice indices 2..8,
reject an empty slice with EmptyDataFrame, otherwise compare the 8-bit
masked sum of the slice with the byte at index 8. -/
def validate_reply (buf : List Nat) : Except Error (List Nat) :=
  let data := (buf.drop 2).take 6
  if data.length = 0 then .error .EmptyDataFrame
  else
    let checksum := (data.foldl (fun a b => a + b) 0) &&& 255
    if checksum ≠ buf.getD 8 0 then .error .BadChecksum
    else .ok buf

/-- get_reply from src/src/lib.rs lines 206-226.  The read_exact outcome
is passed in: a transport failure description, or the 10 bytes read.  A
transport failure converts to ReadError via the From impls of
src/src/error.rs. -/
def get_reply (readResult : Except String (List Nat)) : Except Error (List Nat) :=
  match readResult with
  | .error s => .error (.ReadError s)
  | .ok buf => validate_reply buf

/-- Little-endian decoding of two bytes, as performed by
transmute followed by to_le on a little-endian host
(src/src/lib.rs lines 139-142): low byte first. -/
def le16 (lo hi : Nat) : Nat := lo + 256 * hi

/-- The decoded measurement (src/src/lib.rs lines 62-71) minus the
wall-clock timestamp, which is untranslatable real time.  The f32 fields
are modelled as exact rationals. -/
structure Message where
  pm25 : ℚ
  pm10 : ℚ
deriving DecidableEq, Repr

/-- The measurement decoding done by query on a validated reply
(src/src/lib.rs lines 139-152): bytes 2-3 little-endian over 10, bytes
4-5 little-endian over 10. -/
def query_decode (raw : List Nat) : Message :=
  { pm25 := (le16 (raw.getD 2 0) (raw.getD 3 0) : ℚ) / 10
    pm10 := (le16 (raw.getD 4 0) (raw.getD 5 0) : ℚ) / 10 }

/-- The observable transport interaction of one operation: the frames
written and the number of read_exact calls attempted. -/
structure Trace where
  written : List (List Nat)
  reads : Nat
deriving DecidableEq, Repr

/-- set_report_mode from src/src/lib.rs lines 110-125: build and write
the report-mode frame, then read and validate one reply. -/
def set_report_mode (readResult : Except String (List Nat)) :
    Except Error Unit × Trace :=
  (match get_reply readResult with
   | .error e => .error e
   | .ok _ => .ok (),
   { written := [report_mode_frame], reads := 1 })

/-- query from src/src/lib.rs lines 128-153: build and write the query
frame, read and validate one reply, decode it. -/
def query (readResult : Except String (List Nat)) :
    Except Error Message × Trace :=
  (match get_reply readResult with
   | .error e => .error e
   | .ok raw => .ok (query_decode raw),
   { written := [query_frame], reads := 1 })

/-- set_work_period from src/src/lib.rs lines 165-181: reject work_time
above 30 before any I/O, otherwise build and write the work-period frame
and read and validate one reply. -/
def set_work_period (work_time : Nat) (readResult : Except String (List Nat)) :
    Except Error Unit × Trace :=
  if work_time > 30 then (.error .TooLongWorkTime, { written := [], reads := 0 })
  else
    (match get_reply readResult with
     | .error e => .error e
     | .ok _ => .ok (),
     { written := [work_period_frame work_time], reads := 1 })

/-- new from src/src/lib.rs lines 87-106: on a successful transport open,
run set_report_mode and propagate its result; on an open failure, return
the converted transport error without any I/O. -/
def new (openResult : Except String Unit) (readResult : Except String (List Nat)) :
    Except Error Unit × Trace :=
  match openResult with
  | .error s => (.error (.ReadError s), { written := [], reads := 0 })
  | .ok _ => set_report_mode readResult

end SDS011

/-! The duplicated codec of src/src/sensor.rs, embedded separately so the
two implementations can be compared.  Its get_reply panics on transport
failure, so only its pure validation body is modelled, as an Option. -/

namespace Sensor

/-- cmd_begin from src/src/sensor.rs lines 109-114. -/
def cmd_begin : List Nat := [0xaa, 0xb4]

/-- finish_cmd from src/src/sensor.rs lines 130-146. -/
def finish_cmd (cmd : List Nat) : List Nat :=
  let cmd2 := cmd ++ [0xff, 0xff]
  let checksum := ((cmd2.drop 2).foldl (fun a b => a + b) 0) % 256
  cmd2 ++ [checksum, 0xab]

/-- The frame built by set_report_mode (src/src/sensor.rs lines 67-78). -/
def report_mode_frame : List Nat :=
  finish_cmd (cmd_begin ++ [0x02, 0x01, 0x01] ++ List.replicate 10 0)

/-- The frame built by query (src/src/sensor.rs lines 83-89). -/
def query_frame : List Nat :=
  finish_cmd (cmd_begin ++ [0x04] ++ List.replicate 12 0)

/-- The frame built by set_work_period (src/src/sensor.rs lines 116-125);
this duplicate has no bound check on work_time. -/
def work_period_frame (work_time : Nat) : List Nat :=
  finish_cmd (cmd_begin ++ [0x08, 0x01, work_time] ++ List.replicate 10 0)

/-- The validation body of get_reply (src/src/sensor.rs lines 156-167):
same slice and masked-sum check as the typed codec, returning none on
failure. -/
def get_reply_validate (buf : List Nat) : Option (List Nat) :=
  let data := (buf.drop 2).take 6
  if data.length = 0 then none
  else
    let checksum := (data.foldl (fun a b => a + b) 0) &&& 255
    if checksum ≠ buf.getD 8 0 then none
    else some buf

/-- Little-endian decoding as done by the transmute in
src/src/sensor.rs lines 95-98 on a little-endian host. -/
def le16 (lo hi : Nat) : Nat := lo + 256 * hi

/-- The measurement decoding of query (src/src/sensor.rs lines 94-104),
as a pair of exact rationals standing for the two f32 fields. -/
def query_decode (raw : List Nat) : ℚ × ℚ :=
  ((le16 (raw.getD 2 0) (raw.getD 3 0) : ℚ) / 10,
   (le16 (raw.getD 4 0) (raw.getD 5 0) : ℚ) / 10)

end Sensor

open SDS011

/-- Helper: the reply path never produces the input-validation error
TooLongWorkTime, whatever the transport returned. -/
theorem get_reply_never_tooLongWorkTime (r : Except String (List Nat)) :
    get_reply r ≠ Except.error Error.TooLongWorkTime := by
  rcases r with s | buf
  · simp [get_reply]
  · simp only [get_reply, validate_reply]
    split
    · simp
    · split <;> simp

/-- Claim C1: for every command frame built by set_report_mode, query, or
set_work_period with m at most 30, the checksum byte at index 17 equals
the sum of the frame bytes at indices 2 through 16 reduced modulo 256,
and for set_work_period the checksum equals
(0x08 + 0x01 + m + 0 + 0xFF + 0xFF) mod 256. -/
theorem command_checksum_covers_indices_2_to_16 (m : Nat) (h : m ≤ 30) :
    report_mode_frame.getD 17 0 = ((report_mode_frame.take 17).drop 2).sum % 256 ∧
    query_frame.getD 17 0 = ((query_frame.take 17).drop 2).sum % 256 ∧
    (work_period_frame m).getD 17 0 = (((work_period_frame m).take 17).drop 2).sum % 256 ∧
    (work_period_frame m).getD 17 0 = (0x08 + 0x01 + m + 0 + 0xff + 0xff) % 256 := by
  refine ⟨by decide, by decide, ?_, ?_⟩ <;>
    simp [work_period_frame, finish_cmd, cmd_begin, List.replicate, List.getD,
      WORK_PERIOD_CMD, WRITE] <;> omega

/-- Witness for C1 at the concrete work period 5. -/
theorem command_checksum_covers_indices_2_to_16_witness :
    (work_period_frame 5).getD 17 0 = (0x08 + 0x01 + 5 + 0 + 0xff + 0xff) % 256 :=
  (command_checksum_covers_indices_2_to_16 5 (by decide)).2.2.2

/-- Claim C2: query decodes a validated reply as the little-endian
16-bit value of bytes 2 and 3 over 10 for PM2.5 and of bytes 4 and 5
over 10 for PM10; in particular a reply with payload
0x64 00 C8 00 x y and a correct checksum decodes to 10.0 and 20.0. -/
theorem query_decoding (b0 b1 b2 b3 b4 b5 b6 b7 b8 b9 hd ce x y tl : Nat)
    (hv : validate_reply [b0, b1, b2, b3, b4, b5, b6, b7, b8, b9] =
      Except.ok [b0, b1, b2, b3, b4, b5, b6, b7, b8, b9]) :
    (query (Except.ok [b0, b1, b2, b3, b4, b5, b6, b7, b8, b9])).1 =
      Except.ok { pm25 := (le16 b2 b3 : ℚ) / 10, pm10 := (le16 b4 b5 : ℚ) / 10 } ∧
    (query (Except.ok [hd, ce, 0x64, 0x00, 0xc8, 0x00, x, y,
        (0x64 + 0x00 + 0xc8 + 0x00 + x + y) &&& 255, tl])).1 =
      Except.ok { pm25 := 10, pm10 := 20 } := by
  constructor
  · simp [query, get_reply, hv, query_decode, List.getD]
  · have hv2 : validate_reply [hd, ce, 0x64, 0x00, 0xc8, 0x00, x, y,
        (0x64 + 0x00 + 0xc8 + 0x00 + x + y) &&& 255, tl] =
        Except.ok [hd, ce, 0x64, 0x00, 0xc8, 0x00, x, y,
          (0x64 + 0x00 + 0xc8 + 0x00 + x + y) &&& 255, tl] := by
      simp [validate_reply, List.getD, Nat.zero_add]
    simp [query, get_reply, hv2, query_decode, List.getD, le16]
    norm_num

/-- Witness for C2 at a concrete validated reply. -/
theorem query_decoding_witness :
    (query (Except.ok [0, 0, 1, 2, 3, 4, 5, 6, 21, 0])).1 =
      Except.ok { pm25 := (le16 1 2 : ℚ) / 10, pm10 := (le16 3 4 : ℚ) / 10 } :=
  (query_decoding 0 0 1 2 3 4 5 6 21 0 0 0 0 0 0 rfl).1

/-- Claim C3: set_work_period rejects every work period above 30 with
TooLongWorkTime, writing no frame and attempting no read, and for work
periods at most 30 it never returns TooLongWorkTime. -/
theorem set_work_period_input_validation :
    (∀ m r, 30 < m →
      set_work_period m r =
        (Except.error Error.TooLongWorkTime, { written := [], reads := 0 })) ∧
    (∀ m r, m ≤ 30 → (set_work_period m r).1 ≠ Except.error Error.TooLongWorkTime) := by
  constructor
  · intro m r hm
    simp [set_work_period, hm]
  · intro m r hm
    simp only [set_work_period, if_neg (by omega : ¬ m > 30)]
    cases hg : get_reply r with
    | error e =>
        simp only []
        intro heq
        exact get_reply_never_tooLongWorkTime r (by rw [hg]; cases heq; rfl)
    | ok buf => simp

/-- Witness for C3 at the concrete work period 31. -/
theorem set_work_period_input_validation_witness :
    set_work_period 31 (Except.error "x") =
      (Except.error Error.TooLongWorkTime, { written := [], reads := 0 }) :=
  set_work_period_input_validation.1 31 (Except.error "x") (by decide)

/-- Claim C4: for every 10-byte reply, validation succeeds exactly when
the masked sum of bytes 2 through 7 equals byte 8; a mismatch yields
BadChecksum, and the same check is what set_report_mode, query and
set_work_period all apply through the shared get_reply. -/
theorem reply_checksum_iff (b0 b1 b2 b3 b4 b5 b6 b7 b8 b9 : Nat) :
    (validate_reply [b0, b1, b2, b3, b4, b5, b6, b7, b8, b9] =
        Except.ok [b0, b1, b2, b3, b4, b5, b6, b7, b8, b9] ↔
      (b2 + b3 + b4 + b5 + b6 + b7) &&& 255 = b8) ∧
    ((b2 + b3 + b4 + b5 + b6 + b7) &&& 255 ≠ b8 →
      validate_reply [b0, b1, b2, b3, b4, b5, b6, b7, b8, b9] =
        Except.error Error.BadChecksum) ∧
    get_reply (Except.ok [b0, b1, b2, b3, b4, b5, b6, b7, b8, b9]) =
      validate_reply [b0, b1, b2, b3, b4, b5, b6, b7, b8, b9] ∧
    ((b2 + b3 + b4 + b5 + b6 + b7) &&& 255 ≠ b8 →
      (set_report_mode (Except.ok [b0, b1, b2, b3, b4, b5, b6, b7, b8, b9])).1 =
          Except.error Error.BadChecksum ∧
      (query (Except.ok [b0, b1, b2, b3, b4, b5, b6, b7, b8, b9])).1 =
          Except.error Error.BadChecksum ∧
      ∀ m, m ≤ 30 →
        (set_work_period m (Except.ok [b0, b1, b2, b3, b4, b5, b6, b7, b8, b9])).1 =
          Except.error Error.BadChecksum) := by
  by_cases hc : (b2 + b3 + b4 + b5 + b6 + b7) &&& 255 = b8
  · refine ⟨?_, ?_, rfl, ?_⟩
    · simp [validate_reply, hc, Nat.zero_add]
    · intro hn; exact absurd hc hn
    · intro hn; exact absurd hc hn
  · have hv : validate_reply [b0, b1, b2, b3, b4, b5, b6, b7, b8, b9] =
        Except.error Error.BadChecksum := by
      simp [validate_reply, Nat.zero_add]
      intro hx
      exact absurd hx hc
    refine ⟨?_, fun _ => hv, rfl, fun _ => ⟨?_, ?_, ?_⟩⟩
    · simp [hv]
      exact hc
    · simp [set_report_mode, get_reply, hv]
    · simp [query, get_reply, hv]
    · intro m hm
      simp [set_work_period, if_neg (by omega : ¬ m > 30), get_reply, hv]

/-- Witness for C4 at a concrete corrupted reply. -/
theorem reply_checksum_iff_witness :
    validate_reply [0, 0, 1, 2, 3, 4, 5, 6, 99, 0] = Except.error Error.BadChecksum :=
  (reply_checksum_iff 0 0 1 2 3 4 5 6 99 0).2.1 (by decide)

/-- Claim C5: every outbound frame is 19 bytes with header 0xAA 0xB4,
ID bytes 0xFF 0xFF at indices 15 and 16, checksum at index 17 and tail
0xAB at index 18, and the region between header and ID bytes is the
opcode followed by parameters and zero padding; for query that region is
exactly 0x04 followed by 12 zero bytes. -/
theorem frame_layout (m : Nat) (h : m ≤ 30) :
    report_mode_frame.length = 19 ∧
    query_frame.length = 19 ∧
    (work_period_frame m).length = 19 ∧
    report_mode_frame.getD 0 0 = 0xaa ∧ report_mode_frame.getD 1 0 = 0xb4 ∧
    report_mode_frame.getD 15 0 = 0xff ∧ report_mode_frame.getD 16 0 = 0xff ∧
    report_mode_frame.getD 18 0 = 0xab ∧
    query_frame.getD 0 0 = 0xaa ∧ query_frame.getD 1 0 = 0xb4 ∧
    query_frame.getD 15 0 = 0xff ∧ query_frame.getD 16 0 = 0xff ∧
    query_frame.getD 18 0 = 0xab ∧
    (work_period_frame m).getD 0 0 = 0xaa ∧ (work_period_frame m).getD 1 0 = 0xb4 ∧
    (work_period_frame m).getD 15 0 = 0xff ∧ (work_period_frame m).getD 16 0 = 0xff ∧
    (work_period_frame m).getD 18 0 = 0xab ∧
    (report_mode_frame.drop 2).take 13 = [0x02, 0x01, 0x01] ++ List.replicate 10 0 ∧
    (query_frame.drop 2).take 13 = [0x04] ++ List.replicate 12 0 ∧
    ((work_period_frame m).drop 2).take 13 = [0x08, 0x01, m] ++ List.replicate 10 0 ∧
    (work_period_frame m).getD 17 0 = (((work_period_frame m).take 17).drop 2).sum % 256 := by
  refine ⟨by decide, by decide, ?_, by decide, by decide, by decide, by decide, by decide,
    by decide, by decide, by decide, by decide, by decide, ?_, ?_, ?_, ?_, ?_,
    by decide, by decide, ?_, ?_⟩ <;>
    simp [work_period_frame, finish_cmd, cmd_begin, List.replicate, List.getD,
      WORK_PERIOD_CMD, WRITE, HEAD, CMD_ID, TAIL] <;> omega

/-- Witness for C5 at the concrete work period 5. -/
theorem frame_layout_witness : (work_period_frame 5).length = 19 :=
  (frame_layout 5 (by decide)).2.2.1

/-- Claim C6: a transport read failure surfaces from query,
set_work_period, set_report_mode and construction as the ReadError value
carrying the description string, never as a success value. -/
theorem read_failure_surfaces_as_readError (s : String) (m : Nat) (h : m ≤ 30) :
    (query (Except.error s)).1 = Except.error (Error.ReadError s) ∧
    (set_work_period m (Except.error s)).1 = Except.error (Error.ReadError s) ∧
    (set_report_mode (Except.error s)).1 = Except.error (Error.ReadError s) ∧
    (new (Except.ok ()) (Except.error s)).1 = Except.error (Error.ReadError s) ∧
    ∀ r, (new (Except.error s) r).1 = Except.error (Error.ReadError s) := by
  refine ⟨by simp [query, get_reply], ?_, by simp [set_report_mode, get_reply],
    by simp [new, set_report_mode, get_reply], fun r => by simp [new]⟩
  simp [set_work_period, if_neg (by omega : ¬ m > 30), get_reply]

/-- Witness for C6 at a concrete timeout description. -/
theorem read_failure_surfaces_as_readError_witness :
    (query (Except.error "timeout")).1 = Except.error (Error.ReadError "timeout") :=
  (read_failure_surfaces_as_readError "timeout" 0 (by decide)).1

/-- Claim C7: the codec duplicated in src/src/sensor.rs and the typed
codec of src/src/lib.rs build identical frames for the same operation
and arguments (work periods at most 30), their reply validators accept
exactly the same buffers, and they decode the same PM values. -/
theorem duplicated_codecs_equivalent :
    (∀ m, m ≤ 30 → Sensor.work_period_frame m = SDS011.work_period_frame m) ∧
    Sensor.query_frame = SDS011.query_frame ∧
    Sensor.report_mode_frame = SDS011.report_mode_frame ∧
    (∀ buf out, Sensor.get_reply_validate buf = some out ↔
      SDS011.validate_reply buf = Except.ok out) ∧
    (∀ raw, Sensor.query_decode raw =
      ((SDS011.query_decode raw).pm25, (SDS011.query_decode raw).pm10)) := by
  refine ⟨fun m hm => rfl, rfl, rfl, fun buf out => ?_, fun raw => rfl⟩
  simp only [Sensor.get_reply_validate, SDS011.validate_reply]
  split
  · simp
  · split <;> simp

/-- Witness for C7 at the concrete work period 7. -/
theorem duplicated_codecs_equivalent_witness :
    Sensor.work_period_frame 7 = SDS011.work_period_frame 7 :=
  duplicated_codecs_equivalent.1 7 (by decide)

/-- Claim C8: construction writes exactly the set-report-mode frame
(opcode 0x02, write flag, passive flag, ten zeros, standard framing) and
reads one reply; it succeeds exactly when the open succeeded and the
reply validated, and otherwise returns the corresponding error. -/
theorem new_sends_report_mode_then_propagates :
    report_mode_frame =
      [0xaa, 0xb4, 0x02, 0x01, 0x01, 0, 0, 0, 0, 0, 0, 0, 0, 0, 0, 0xff, 0xff, 0x02, 0xab] ∧
    (∀ r, (new (Except.ok ()) r).2 = { written := [report_mode_frame], reads := 1 }) ∧
    (∀ r, ((new (Except.ok ()) r).1 = Except.ok () ↔ ∃ buf, get_reply r = Except.ok buf)) ∧
    (∀ r e, get_reply r = Except.error e → (new (Except.ok ()) r).1 = Except.error e) ∧
    (∀ s r, new (Except.error s) r =
      (Except.error (Error.ReadError s), { written := [], reads := 0 })) := by
  refine ⟨by decide, fun r => rfl, fun r => ?_, fun r e hg => ?_, fun s r => rfl⟩
  · cases hg : get_reply r with
    | error e => simp [new, set_report_mode, hg]
    | ok buf => simp [new, set_report_mode, hg]
  · simp [new, set_report_mode, hg]

/-- Witness for C8 at a concrete failing read. -/
theorem new_sends_report_mode_then_propagates_witness :
    (new (Except.ok ()) (Except.error "boom")).1 = Except.error (Error.ReadError "boom") :=
  new_sends_report_mode_then_propagates.2.2.2.1 (Except.error "boom")
    (Error.ReadError "boom") rfl

/-- Helper for C9: validation of an explicit 10-byte buffer never takes
the EmptyDataFrame branch, since the slice at indices 2..8 has length 6. -/
theorem validate_ten_bytes_never_emptyDataFrame (b0 b1 b2 b3 b4 b5 b6 b7 b8 b9 : Nat) :
    validate_reply [b0, b1, b2, b3, b4, b5, b6, b7, b8, b9] ≠
      Except.error Error.EmptyDataFrame := by
  simp only [validate_reply]
  split
  · simp_all
  · split <;> simp

/-- Claim C9: the payload slice of a 10-byte reply has length exactly 6,
so the EmptyDataFrame branch is unreachable: no operation returns
EmptyDataFrame on any read outcome. -/
theorem emptyDataFrame_unreachable (b0 b1 b2 b3 b4 b5 b6 b7 b8 b9 : Nat) (s : String) (m : Nat) :
    (([b0, b1, b2, b3, b4, b5, b6, b7, b8, b9].drop 2).take 6).length = 6 ∧
    validate_reply [b0, b1, b2, b3, b4, b5, b6, b7, b8, b9] ≠
      Except.error Error.EmptyDataFrame ∧
    (query (Except.ok [b0, b1, b2, b3, b4, b5, b6, b7, b8, b9])).1 ≠
      Except.error Error.EmptyDataFrame ∧
    (query (Except.error s)).1 ≠ Except.error Error.EmptyDataFrame ∧
    (set_report_mode (Except.ok [b0, b1, b2, b3, b4, b5, b6, b7, b8, b9])).1 ≠
      Except.error Error.EmptyDataFrame ∧
    (set_report_mode (Except.error s)).1 ≠ Except.error Error.EmptyDataFrame ∧
    (set_work_period m (Except.ok [b0, b1, b2, b3, b4, b5, b6, b7, b8, b9])).1 ≠
      Except.error Error.EmptyDataFrame ∧
    (set_work_period m (Except.error s)).1 ≠ Except.error Error.EmptyDataFrame ∧
    (new (Except.ok ()) (Except.ok [b0, b1, b2, b3, b4, b5, b6, b7, b8, b9])).1 ≠
      Except.error Error.EmptyDataFrame ∧
    (∀ r, (new (Except.error s) r).1 ≠ Except.error Error.EmptyDataFrame) := by
  have hval := validate_ten_bytes_never_emptyDataFrame b0 b1 b2 b3 b4 b5 b6 b7 b8 b9
  refine ⟨rfl, hval, ?_, by simp [query, get_reply], ?_, by simp [set_report_mode, get_reply],
    ?_, ?_, ?_, fun r => by simp [new]⟩
  · simp only [query, get_reply]
    cases hv : validate_reply [b0, b1, b2, b3, b4, b5, b6, b7, b8, b9] with
    | error e =>
        simp only []
        intro heq
        cases heq
        exact hval hv
    | ok raw => simp
  · simp only [set_report_mode, get_reply]
    cases hv : validate_reply [b0, b1, b2, b3, b4, b5, b6, b7, b8, b9] with
    | error e =>
        simp only []
        intro heq
        cases heq
        exact hval hv
    | ok raw => simp
  · by_cases hm : m > 30
    · simp [set_work_period, hm]
    · simp only [set_work_period, if_neg hm, get_reply]
      cases hv : validate_reply [b0, b1, b2, b3, b4, b5, b6, b7, b8, b9] with
      | error e =>
          simp only []
          intro heq
          cases heq
          exact hval hv
      | ok raw => simp
  · by_cases hm : m > 30
    · simp [set_work_period, hm]
    · simp [set_work_period, if_neg hm, get_reply]
  · simp only [new, set_report_mode, get_reply]
    cases hv : validate_reply [b0, b1, b2, b3, b4, b5, b6, b7, b8, b9] with
    | error e =>
        simp only []
        intro heq
        cases heq
        exact hval hv
    | ok raw => simp

/-- Claim C10: reply validation reads only indices 2 through 8: two
buffers agreeing there are both accepted or both rejected with the same
error, whatever their head, command-echo and tail bytes; in particular a
buffer with a correct checksum but wrong head and tail is accepted. -/
theorem reply_validation_ignores_head_echo_tail
    (a0 a1 a9 b0 b1 b9 c2 c3 c4 c5 c6 c7 c8 : Nat) :
    ((∃ out, validate_reply [a0, a1, c2, c3, c4, c5, c6, c7, c8, a9] = Except.ok out) ↔
      (∃ out, validate_reply [b0, b1, c2, c3, c4, c5, c6, c7, c8, b9] = Except.ok out)) ∧
    (∀ e, validate_reply [a0, a1, c2, c3, c4, c5, c6, c7, c8, a9] = Except.error e ↔
      validate_reply [b0, b1, c2, c3, c4, c5, c6, c7, c8, b9] = Except.error e) ∧
    validate_reply [0, 0, 1, 2, 3, 4, 5, 6, 21, 0] =
      Except.ok [0, 0, 1, 2, 3, 4, 5, 6, 21, 0] := by
  by_cases hc : (c2 + c3 + c4 + c5 + c6 + c7) &&& 255 = c8
  · refine ⟨?_, ?_, rfl⟩
    · simp [validate_reply, hc, Nat.zero_add]
    · intro e
      simp [validate_reply, hc, Nat.zero_add]
  · refine ⟨?_, ?_, rfl⟩
    · simp [validate_reply, hc, Nat.zero_add]
    · intro e
      simp [validate_reply, hc, Nat.zero_add]
